import Mathlib

/-!
Shallow embedding of `src/app/main.py` of the ppt-to-pdf-converter service
(FastAPI + LibreOffice).  Pure string manipulation (Python `pathlib` suffix /
stem / lower), the format policy, the two conversion endpoints
(`convert_ppt`, `convert_ppt_default`), the metadata index
(`load_metadata_index`, `delete_metadata_for_output`) and the artifact store
endpoints (`download_file`, `delete_output`) are translated into executable
Lean definitions.  The filesystem is modelled as explicit state (lists of
file names per directory; an association list for the metadata directory);
the external LibreOffice process is modelled as an `EngineRun` value
describing its wall-clock duration, exit code, stderr and the files it
creates in the output directory.
-/

set_option maxHeartbeats 1000000

namespace PptConverter

/-! ## Python string/path primitives -/

/-- Split a character list at its *last* occurrence of `sep`:
`splitLastOn sep cs = some (pre, post)` when `cs = pre ++ sep :: post` with
`sep ∉ post`; `none` when `sep` does not occur. -/
def splitLastOn (sep : Char) : List Char → Option (List Char × List Char)
  | [] => none
  | c :: cs =>
    match splitLastOn sep cs with
    | some (pre, post) => some (c :: pre, post)
    | none => if c = sep then some ([], cs) else none

/-- `pathlib.PurePath.name`: the final path component (the part after the
last `/`). -/
def pyName (cs : List Char) : List Char :=
  match splitLastOn '/' cs with
  | some (_, post) => post
  | none => cs

/-- `pathlib.PurePath.suffix` on a character list: the extension of the final
component, from its last dot, empty when the dot is leading (hidden file) or
trailing. -/
def pySuffixL (cs : List Char) : List Char :=
  match splitLastOn '.' (pyName cs) with
  | some (pre, post) => if pre = [] ∨ post = [] then [] else '.' :: post
  | none => []

/-- `pathlib.PurePath.stem` on a character list: the final component minus
`pySuffixL`. -/
def pyStemL (cs : List Char) : List Char :=
  match splitLastOn '.' (pyName cs) with
  | some (pre, post) => if pre = [] ∨ post = [] then pyName cs else pre
  | none => pyName cs

/-- `Path(s).suffix`. -/
def pySuffix (s : String) : String := ⟨pySuffixL s.data⟩

/-- `Path(s).stem`. -/
def pyStem (s : String) : String := ⟨pyStemL s.data⟩

/-- Python `str.lower` (ASCII case folding; file extensions are ASCII). -/
def pyLower (s : String) : String := ⟨s.data.map Char.toLower⟩

/-- Python `str.lstrip "."` as used on the members of
`ALLOWED_OUTPUT_FORMATS`. -/
def pyLstripDot (s : String) : String := ⟨s.data.dropWhile (· = '.')⟩

/-! ## Format policy (main.py lines 160-163, 430-443) -/

/-- `ALLOWED_INPUT_FORMATS = {".ppt", ".pptx", ".odp"}` (main.py line 161). -/
def ALLOWED_INPUT_FORMATS : List String := [".ppt", ".pptx", ".odp"]

/-- `ALLOWED_OUTPUT_FORMATS = {".pdf", ".odp", ".pptx", ".html"}`
(main.py line 163). -/
def ALLOWED_OUTPUT_FORMATS : List String := [".pdf", ".odp", ".pptx", ".html"]

/-- `[fmt.lstrip(".") for fmt in ALLOWED_OUTPUT_FORMATS]` (main.py line 439). -/
def allowedOutputNames : List String := ALLOWED_OUTPUT_FORMATS.map pyLstripDot

example : allowedOutputNames = ["pdf", "odp", "pptx", "html"] := by decide

example : pySuffix "deck.pptx" = ".pptx" := by decide
example : pySuffix "deck" = "" := by decide
example : pySuffix ".hidden" = "" := by decide
example : pySuffix "a.b.PPTX" = ".PPTX" := by decide
example : pyLower ".PPTX" = ".pptx" := by decide
example : pyStem "deck.pptx" = "deck" := by decide
example : pyStem "dir/deck.pptx" = "deck" := by decide

/-! ## Data model: metadata records, filesystem state, engine behavior -/

/-- A parsed metadata JSON object.  Fields are optional to model
`dict.get` returning `None` for absent keys (legacy records may lack some
fields).  `conversion_options` is a key/value list (main.py lines 519-521
write `{"use_tagged_pdf": ...}`). -/
structure MetaJson where
  original_filename : Option String := none
  output_filename : Option String := none
  file_id : Option String := none
  output_format : Option String := none
  conversion_options : Option (List (String × String)) := none
  created_at : Option String := none
  deriving DecidableEq, Repr

/-- One file of the metadata directory: the JSON either parses to an object
(`valid`) or raises in `json.load` (`corrupt`, skipped by the index rebuild,
main.py lines 120-124). -/
inductive MetaFile where
  | corrupt
  | valid (m : MetaJson)
  deriving DecidableEq, Repr

/-- The metadata directory: association list from record stem (the file is
`{stem}.json`) to its content, in `glob` iteration order. -/
abbrev MetaDir := List (String × MetaFile)

/-- Filesystem state visible to the conversion endpoints: the names present
in `/tmp/uploads`, the names present in `/tmp/outputs`, and the metadata
directory. -/
structure FS where
  uploads : List String
  outputs : List String
  metadata : MetaDir
  deriving DecidableEq, Repr

/-- One behavior of the external `libreoffice` process: how long it runs
(seconds of wall clock), its exit code, its stderr text, and the files it
creates in the output directory before exiting. -/
structure EngineRun where
  duration : Nat
  returncode : Int
  stderr : String
  produced : List String
  deriving DecidableEq, Repr

/-- Injected non-engine failure: `noFault` is the normal run;
`stagingFails` models an exception raised while persisting the upload
(`open`/`copyfileobj`, main.py lines 452-453), caught by the generic
`except Exception` handler. -/
inductive Fault where
  | noFault
  | stagingFails
  deriving DecidableEq, Repr

/-- The value a conversion endpoint produces: an `HTTPException`
(status code and detail string) or a `FileResponse` (served path and
download filename). -/
inductive Response where
  | httpError (status : Nat) (detail : String)
  | fileResponse (path : String) (downloadName : String)
  deriving DecidableEq, Repr

/-- The `subprocess.run` invocation of the engine: the `--convert-to`
argument, the `--outdir` argument, the input path, and the `timeout=`
bound in seconds (main.py lines 477-491). -/
structure Invocation where
  convert_to : String
  outdir : String
  input : String
  timeoutSec : Nat
  deriving DecidableEq, Repr

/-- Result of one endpoint invocation: the HTTP response, the final
filesystem state, and the engine invocation when `subprocess.run` was
reached (`none` when validation or staging failed first). -/
structure RunResult where
  response : Response
  fs : FS
  invocation : Option Invocation
  deriving DecidableEq, Repr

/-! ## List/dictionary helpers over the filesystem model -/

/-- Create a file (presence-wise): `open(path, "wb")` creates or
truncates, so the name is present afterwards. -/
def listInsert (l : List String) (a : String) : List String :=
  if a ∈ l then l else a :: l

/-- Files created by the engine in the output directory. -/
def insertAll (l : List String) (xs : List String) : List String :=
  xs.foldl listInsert l

/-- Write (or overwrite) the metadata record file `{key}.json`
(main.py lines 513, 524-525). -/
def metaWrite (dir : MetaDir) (key : String) (v : MetaFile) : MetaDir :=
  (key, v) :: dir.filter (fun p => p.1 != key)

/-- `(METADATA_DIR / f"{key}.json").exists()`. -/
def dirHas (dir : MetaDir) (key : String) : Bool :=
  dir.any (fun p => p.1 == key)

/-- `Path.unlink` of the record file `{key}.json`. -/
def dirErase (dir : MetaDir) (key : String) : MetaDir :=
  dir.filter (fun p => p.1 != key)

/-- Python dict assignment `d[k] = v` (later assignments shadow earlier
ones). -/
def dictSet (d : List (String × MetaJson)) (k : String) (v : MetaJson) :
    List (String × MetaJson) :=
  (k, v) :: d.filter (fun p => p.1 != k)

/-- Python `d.get(k)`. -/
def dictGet (d : List (String × MetaJson)) (k : String) : Option MetaJson :=
  (d.find? (fun p => p.1 == k)).map (·.2)

/-- Number of metadata records keyed by `key`. -/
def keyCount (dir : MetaDir) (key : String) : Nat :=
  dir.countP (fun p => p.1 == key)

/-! ## Metadata Index (main.py lines 111-158) -/

/-- One `glob` iteration step of `load_metadata_index` (main.py
lines 119-132): a record that fails `json.load` is skipped; otherwise
`output_name = metadata.get("output_filename") or metadata_path.stem` keys
`metadata_by_output` when truthy, and `metadata.get("file_id")` keys
`metadata_by_id` when truthy. -/
def indexStep (acc : List (String × MetaJson) × List (String × MetaJson))
    (entry : String × MetaFile) :
    List (String × MetaJson) × List (String × MetaJson) :=
  match entry.2 with
  | .corrupt => acc
  | .valid m =>
    let output_name :=
      match m.output_filename with
      | some s => if s = "" then entry.1 else s
      | none => entry.1
    let acc1 := if output_name ≠ "" then (dictSet acc.1 output_name m, acc.2) else acc
    match m.file_id with
    | some fidv => if fidv ≠ "" then (acc1.1, dictSet acc1.2 fidv m) else acc1
    | none => acc1

/-- `load_metadata_index` (main.py lines 111-134): rebuild the
by-output-filename and by-file-id dictionaries from the metadata
directory. -/
def load_metadata_index (dir : MetaDir) :
    List (String × MetaJson) × List (String × MetaJson) :=
  dir.foldl indexStep ([], [])

/-- `delete_metadata_for_output` (main.py lines 137-158): try the
artifact-name-keyed record `{filename}.json` first; if absent, rebuild the
index, look the filename up in `metadata_by_output`, and delete the legacy
`{file_id}.json` record when it exists.  Returns (deleted?, new metadata
directory). -/
def delete_metadata_for_output (dir : MetaDir) (filename : String) :
    Bool × MetaDir :=
  if dirHas dir filename then (true, dirErase dir filename)
  else
    let idx := load_metadata_index dir
    match dictGet idx.1 filename with
    | none => (false, dir)
    | some m =>
      match m.file_id with
      | none => (false, dir)
      | some fidv =>
        if fidv ≠ "" ∧ dirHas dir fidv then (true, dirErase dir fidv)
        else (false, dir)

/-! ## Format Policy: engine format/filter string (main.py lines 455-475) -/

/-- Python `str(HTTPException(status, detail))` — starlette renders
`f"{status_code}: {detail}"`. -/
def excStr (status : Nat) (detail : String) : String :=
  toString status ++ ": " ++ detail

/-- The generic `except Exception as e` handler of the conversion
endpoints (main.py lines 539-543): re-raises
`HTTPException(500, f"변환 중 오류 발생: {str(e)}")`. -/
def wrapDetail (e : String) : String := "변환 중 오류 발생: " ++ e

/-- The `--convert-to` argument built at main.py lines 455-475: for `pdf`
with `use_tagged_pdf` the impress PDF export filter with
`UseTaggedPDF=true`; otherwise the plain format name. -/
def convertFormatFor (output_format : String) (use_tagged_pdf : Bool) : String :=
  if output_format = "pdf" then
    let filter_options : List String :=
      if use_tagged_pdf then ["UseTaggedPDF=true"] else []
    if filter_options ≠ [] then
      "pdf:impress_pdf_Export:\x7b" ++ String.intercalate ":" filter_options ++ "\x7d"
    else "pdf"
  else output_format

/-- JSON rendering of a Python bool, as recorded in metadata. -/
def pyBool (b : Bool) : String := if b then "true" else "false"

/-! ## Conversion Job Runner (main.py lines 450-547 and 582-655) -/

/-- Detail of the timeout `HTTPException` (main.py lines 534-538, 642-646). -/
def timeoutDetail : String := "변환 시간이 초과되었습니다."

/-- Detail of the engine-failure `HTTPException` raised at main.py
lines 493-497 before wrapping. -/
def engineFailDetail (stderr : String) : String := "변환 실패: " ++ stderr

/-- Detail of the missing-output `HTTPException` raised at main.py
lines 507-510 before wrapping. -/
def missingOutputDetail : String := "변환된 파일을 찾을 수 없습니다."

/-- The `try/except/finally` body shared verbatim by both conversion
endpoints (main.py lines 450-547 = lines 582-655 up to the three
parameters: the `--convert-to` string, the `timeout=` bound, and whether a
`conversion_options` object is written to metadata).

Steps, in source order: persist the upload to `{file_id}{file_ext}`
(an injected staging exception goes to `except Exception`); run the engine
under the timeout (`subprocess.TimeoutExpired` → its own handler); non-zero
exit raises `HTTPException(500, 변환 실패)`, which the generic
`except Exception` handler wraps; resolve the output at the predicted path
`{file_id}.{output_format}`, falling back to
`{input_file.stem}.{output_format}`, else raise the missing-output error
(also wrapped); on success write the metadata record keyed by the resolved
artifact name and return a `FileResponse`.  The `finally` block deletes the
staged input if it still exists, on every path. -/
def tryConvert (fs : FS) (filename input_name output_name : String)
    (convert_format : String) (tlimit : Nat)
    (convOpts : Option (List (String × String)))
    (fmt fid : String) (eng : EngineRun) (fault : Fault) (now : String) :
    RunResult :=
  match fault with
  | .stagingFails =>
    { response := .httpError 500 (wrapDetail "staging error"),
      fs := { fs with uploads := fs.uploads.erase input_name },
      invocation := none }
  | .noFault =>
    let fs1 : FS := { fs with uploads := listInsert fs.uploads input_name }
    let inv : Invocation :=
      { convert_to := convert_format, outdir := "/tmp/outputs",
        input := "/tmp/uploads/" ++ input_name, timeoutSec := tlimit }
    if eng.duration > tlimit then
      { response := .httpError 500 timeoutDetail,
        fs := { fs1 with uploads := fs1.uploads.erase input_name },
        invocation := some inv }
    else
      let fs2 : FS := { fs1 with outputs := insertAll fs1.outputs eng.produced }
      if eng.returncode ≠ 0 then
        { response := .httpError 500 (wrapDetail (excStr 500 (engineFailDetail eng.stderr))),
          fs := { fs2 with uploads := fs2.uploads.erase input_name },
          invocation := some inv }
      else
        let resolved : Option String :=
          if output_name ∈ fs2.outputs then some output_name
          else
            let possible := pyStem input_name ++ "." ++ fmt
            if possible ∈ fs2.outputs then some possible else none
        match resolved with
        | none =>
          { response := .httpError 500 (wrapDetail (excStr 500 missingOutputDetail)),
            fs := { fs2 with uploads := fs2.uploads.erase input_name },
            invocation := some inv }
        | some artifact =>
          let record : MetaJson :=
            { original_filename := some filename, output_filename := some artifact,
              file_id := some fid, output_format := some fmt,
              conversion_options := convOpts, created_at := some now }
          let fs3 : FS := { fs2 with metadata := metaWrite fs2.metadata artifact (.valid record) }
          { response := .fileResponse ("/tmp/outputs/" ++ artifact)
              (pyStem filename ++ "." ++ fmt),
            fs := { fs3 with uploads := fs3.uploads.erase input_name },
            invocation := some inv }

/-- Detail of the invalid-input-format `HTTPException` (main.py
lines 432-436; the set-iteration order of the joined allowed set is
unspecified in Python, one order is fixed here). -/
def invalidInputDetail : String :=
  "지원하지 않는 입력 형식입니다. 허용된 형식: .ppt, .pptx, .odp"

/-- Detail of the invalid-output-format `HTTPException` (main.py
lines 440-443). -/
def invalidOutputDetail : String :=
  "지원하지 않는 출력 형식입니다. 허용된 형식: pdf, odp, pptx, html"

/-- `POST /convert` (main.py lines 415-547): validate the input extension
and the output format, then run the shared conversion body with the
option-resolved `--convert-to` string, a 120 s timeout, and a
`conversion_options` object recording `use_tagged_pdf`. -/
def convert_ppt (fs : FS) (filename output_format : String)
    (use_tagged_pdf : Bool) (fid : String) (eng : EngineRun) (fault : Fault)
    (now : String) : RunResult :=
  let file_ext := pyLower (pySuffix filename)
  if file_ext ∈ ALLOWED_INPUT_FORMATS then
    if output_format ∈ allowedOutputNames then
      tryConvert fs filename (fid ++ file_ext) (fid ++ "." ++ output_format)
        (convertFormatFor output_format use_tagged_pdf) 120
        (some [("use_tagged_pdf", pyBool use_tagged_pdf)])
        output_format fid eng fault now
    else { response := .httpError 400 invalidOutputDetail, fs := fs, invocation := none }
  else { response := .httpError 400 invalidInputDetail, fs := fs, invocation := none }

/-- `POST /convert_default` (main.py lines 551-655): same pipeline with the
plain format name as `--convert-to`, a 60 s timeout, and no
`conversion_options` object in the metadata record. -/
def convert_ppt_default (fs : FS) (filename output_format : String)
    (fid : String) (eng : EngineRun) (fault : Fault) (now : String) :
    RunResult :=
  let file_ext := pyLower (pySuffix filename)
  if file_ext ∈ ALLOWED_INPUT_FORMATS then
    if output_format ∈ allowedOutputNames then
      tryConvert fs filename (fid ++ file_ext) (fid ++ "." ++ output_format)
        output_format 60 none output_format fid eng fault now
    else { response := .httpError 400 invalidOutputDetail, fs := fs, invocation := none }
  else { response := .httpError 400 invalidInputDetail, fs := fs, invocation := none }

/-- The predicted output path name `{job_id}.{output_format}`
(main.py line 448). -/
def predictedOutput (fid fmt : String) : String := fid ++ "." ++ fmt

/-- The fallback output path name `{staged_input_stem}.{output_format}`
(main.py lines 502-503). -/
def fallbackOutput (fid ext fmt : String) : String :=
  pyStem (fid ++ ext) ++ "." ++ fmt

/-! ## Artifact Store: download / delete (main.py lines 298-354)

Absolute paths are component lists (`["tmp", "outputs", name]` is
`/tmp/outputs/name`); the filesystem outside the metadata directory is the
list of existing file paths.  No symlinks, so `Path.resolve()` is lexical
normalization of `.` and `..`. -/

/-- Split a character list on `/` into components, dropping empty ones
(`acc` holds the current component reversed). -/
def splitCompsGo : List Char → List Char → List String
  | acc, [] => if acc = [] then [] else [⟨acc.reverse⟩]
  | acc, '/' :: rest =>
    if acc = [] then splitCompsGo [] rest else ⟨acc.reverse⟩ :: splitCompsGo [] rest
  | acc, c :: rest => splitCompsGo (c :: acc) rest

/-- Split a path string on `/`, dropping empty components. -/
def splitSlash (s : String) : List String := splitCompsGo [] s.data

/-- Python `str.startswith("/")` on the raw filename (an absolute right
operand makes `Path.__truediv__` discard the left side). -/
def startsWithSlash (s : String) : Bool :=
  match s.data with
  | '/' :: _ => true
  | _ => false

/-- Lexical `Path.resolve()`: drop `.`, let `..` pop (staying at the root
when already there). -/
def normalizeComps (cs : List String) : List String :=
  cs.foldl
    (fun acc c =>
      if c = "." then acc
      else if c = ".." then acc.dropLast
      else acc ++ [c]) []

/-- `OUTPUT_DIR / filename` (pathlib join: an absolute `filename` replaces
the left side), then `resolve()`. -/
def resolvedOutputPath (filename : String) : List String :=
  if startsWithSlash filename then normalizeComps (splitSlash filename)
  else normalizeComps (["tmp", "outputs"] ++ splitSlash filename)

/-- `str(path)` for an absolute component list. -/
def renderPath (cs : List String) : String :=
  "/" ++ String.intercalate "/" cs

/-- The containment test of main.py lines 312 and 340:
`str(file_path.resolve()).startswith(str(OUTPUT_DIR.resolve()))`. -/
def insideCheck (cs : List String) : Bool :=
  List.isPrefixOf "/tmp/outputs".data (renderPath cs).data

/-- What the spec means by "within the store root": the path's first two
components are the output directory. -/
def underOutputRoot (cs : List String) : Bool :=
  cs.take 2 == ["tmp", "outputs"] && cs.length > 2

/-- Result of `GET /download/{filename}`. -/
inductive DownloadResult where
  | httpError (status : Nat) (detail : String)
  | file (path : List String) (downloadName : String)
  deriving DecidableEq, Repr

/-- `download_file` (main.py lines 298-329): 404 when the path does not
exist, 403 when the string-prefix containment test fails, otherwise a
`FileResponse` for the resolved path. -/
def download_file (rootFs : List (List String)) (filename : String) :
    DownloadResult :=
  let p := resolvedOutputPath filename
  if p ∉ rootFs then .httpError 404 "파일을 찾을 수 없습니다."
  else if ¬ insideCheck p then .httpError 403 "접근이 거부되었습니다."
  else .file p filename

/-- Result of `DELETE /outputs/{filename}`. -/
inductive DeleteResult where
  | httpError (status : Nat) (detail : String)
  | ok (filename : String) (metadata_removed : Bool)
  deriving DecidableEq, Repr

/-- `delete_output` (main.py lines 332-354): 404 when absent, 403 when the
string-prefix containment test fails, otherwise unlink the resolved path
and then delete the artifact's metadata.  Returns the response, the
remaining files, and the remaining metadata directory. -/
def delete_output (rootFs : List (List String)) (mdir : MetaDir)
    (filename : String) : DeleteResult × List (List String) × MetaDir :=
  let p := resolvedOutputPath filename
  if p ∉ rootFs then (.httpError 404 "파일을 찾을 수 없습니다.", rootFs, mdir)
  else if ¬ insideCheck p then (.httpError 403 "접근이 거부되었습니다.", rootFs, mdir)
  else
    let rootFs1 := rootFs.erase p
    let md := delete_metadata_for_output mdir filename
    (.ok filename md.1, rootFs1, md.2)

/-! ## The conversion-options surface (main.py lines 44-83, 357-412) -/

/-- The field names of the `ConversionOptions` pydantic model
(main.py lines 44-83). -/
def conversionOptionsModelFields : List String :=
  ["quality", "embed_fonts", "compress_images", "image_quality",
   "export_notes", "export_hidden_slides", "use_tagged_pdf",
   "export_bookmarks", "pdf_version"]

/-- The option names enumerated by `GET /conversion-options`
(main.py lines 357-412, keys of the `options` dict). -/
def conversionOptionsSurface : List String :=
  ["quality", "embed_fonts", "compress_images", "image_quality",
   "export_notes", "export_hidden_slides", "use_tagged_pdf",
   "export_bookmarks", "pdf_version"]

/-- The request parameters of `POST /convert` (main.py lines 416-419). -/
def convertEndpointParams : List String := ["file", "output_format", "use_tagged_pdf"]

/-- The request parameters of `POST /convert_default`
(main.py lines 552-554). -/
def convertDefaultEndpointParams : List String := ["file", "output_format"]

/-! ## Helper lemmas -/

theorem splitLastOn_eq_none {sep : Char} {cs : List Char} (h : sep ∉ cs) :
    splitLastOn sep cs = none := by
  induction cs with
  | nil => rfl
  | cons c cs ih =>
    have hc : c ≠ sep := fun hc => h (hc ▸ List.mem_cons_self c cs)
    have hcs : sep ∉ cs := fun hm => h (List.mem_cons_of_mem c hm)
    simp [splitLastOn, ih hcs, hc]

theorem splitLastOn_append {sep : Char} {post : List Char} (pre : List Char)
    (h : sep ∉ post) :
    splitLastOn sep (pre ++ sep :: post) = some (pre, post) := by
  induction pre with
  | nil => simp [splitLastOn, splitLastOn_eq_none h]
  | cons c pre ih => simp [splitLastOn, ih]

theorem pyName_of_no_slash {cs : List Char} (h : '/' ∉ cs) : pyName cs = cs := by
  simp [pyName, splitLastOn_eq_none h]

/-- For a nonempty, slash-free job id and a dotted extension whose tail is a
nonempty dot-free, slash-free string, the staged name `{fid}{ext}` has stem
`fid` and suffix `ext`. -/
theorem pyStem_data_append {fid ext : List Char} (hfid : fid ≠ [])
    (hslash : '/' ∉ fid) (hext : ∃ t, ext = '.' :: t ∧ t ≠ [] ∧ '.' ∉ t ∧ '/' ∉ t) :
    pyStemL (fid ++ ext) = fid := by
  obtain ⟨t, rfl, ht, hdot, htslash⟩ := hext
  have hns : '/' ∉ fid ++ '.' :: t := by
    intro hm
    rcases List.mem_append.1 hm with hm | hm
    · exact hslash hm
    · rcases List.mem_cons.1 hm with hm | hm
      · exact absurd hm.symm (by decide)
      · exact htslash hm
  simp only [pyStemL, pyName_of_no_slash hns, splitLastOn_append fid hdot]
  simp [hfid, ht]

/-- String-level form: for a nonempty slash-free job id and any allowed
input extension, `Path(f"{fid}{ext}").stem == fid`. -/
theorem pyStem_id_ext (fid ext : String) (hfid : fid ≠ "")
    (hslash : '/' ∉ fid.data) (hext : ext ∈ ALLOWED_INPUT_FORMATS) :
    pyStem (fid ++ ext) = fid := by
  have hdata : fid.data ≠ [] := by
    cases fid with
    | mk l => intro hl; subst hl; exact hfid rfl
  have happ : (fid ++ ext).data = fid.data ++ ext.data := String.data_append fid ext
  cases fid with
  | mk l =>
    fin_cases hext <;>
      simp only [pyStem, happ] <;>
      rw [pyStem_data_append hdata hslash (by exact ⟨_, rfl, by decide, by decide, by decide⟩)]

/-- The `finally` cleanup: across every branch of the shared conversion
body, the upload directory is restored to its pre-invocation contents
whenever the staged name was fresh (the staged input never survives the
invocation). -/
theorem tryConvert_uploads (fs : FS) (filename input_name output_name cf : String)
    (t : Nat) (co : Option (List (String × String))) (fmt fid : String)
    (eng : EngineRun) (fault : Fault) (now : String)
    (h : input_name ∉ fs.uploads) :
    (tryConvert fs filename input_name output_name cf t co fmt fid eng fault now).fs.uploads
      = fs.uploads := by
  have key : (listInsert fs.uploads input_name).erase input_name = fs.uploads := by
    simp [listInsert, h]
  cases fault with
  | stagingFails => simp [tryConvert, List.erase_of_not_mem h]
  | noFault =>
    simp only [tryConvert]
    split
    · simpa using key
    · split
      · simpa using key
      · split
        · simpa using key
        · simpa using key

/-- In a fault-free run, `subprocess.run` is always reached, with the given
`--convert-to` string and timeout bound. -/
theorem tryConvert_invocation (fs : FS) (filename input_name output_name cf : String)
    (t : Nat) (co : Option (List (String × String))) (fmt fid : String)
    (eng : EngineRun) (now : String) :
    (tryConvert fs filename input_name output_name cf t co fmt fid eng .noFault now).invocation
      = some ⟨cf, "/tmp/outputs", "/tmp/uploads/" ++ input_name, t⟩ := by
  simp only [tryConvert]
  split
  · rfl
  · split
    · rfl
    · split
      · rfl
      · rfl

/-- The shared conversion body never answers with a 400 response: the only
400 rejections are the format validations before it. -/
theorem tryConvert_not_400 (fs : FS) (filename input_name output_name cf : String)
    (t : Nat) (co : Option (List (String × String))) (fmt fid : String)
    (eng : EngineRun) (fault : Fault) (now : String) (d : String) :
    (tryConvert fs filename input_name output_name cf t co fmt fid eng fault now).response
      ≠ .httpError 400 d := by
  cases fault with
  | stagingFails => simp [tryConvert]
  | noFault =>
    simp only [tryConvert]
    split
    · simp
    · split
      · simp
      · split
        · simp
        · simp

/-- A `metaWrite` leaves exactly one record under its key. -/
theorem keyCount_metaWrite (dir : MetaDir) (k : String) (v : MetaFile) :
    keyCount (metaWrite dir k v) k = 1 := by
  simp only [keyCount, metaWrite, List.countP_cons, beq_self_eq_true, if_pos]
  have h0 : (dir.filter (fun p => p.1 != k)).countP (fun p => p.1 == k) = 0 := by
    refine List.countP_eq_zero.2 ?_
    intro p hp
    have := (List.mem_filter.1 hp).2
    simpa using this
  omega

/-- `subprocess.TimeoutExpired` branch: when the engine outlives the bound,
the response is the dedicated timeout error. -/
theorem tryConvert_timeout (fs : FS) (filename input_name output_name cf : String)
    (t : Nat) (co : Option (List (String × String))) (fmt fid : String)
    (eng : EngineRun) (now : String) (h : eng.duration > t) :
    (tryConvert fs filename input_name output_name cf t co fmt fid eng .noFault now).response
      = .httpError 500 timeoutDetail := by
  simp [tryConvert, h]

/-- Non-zero engine exit: the `변환 실패` `HTTPException` is raised, then
wrapped by the generic `except Exception` handler. -/
theorem tryConvert_engine_fail (fs : FS) (filename input_name output_name cf : String)
    (t : Nat) (co : Option (List (String × String))) (fmt fid : String)
    (eng : EngineRun) (now : String) (ht : ¬ eng.duration > t)
    (hrc : eng.returncode ≠ 0) :
    (tryConvert fs filename input_name output_name cf t co fmt fid eng .noFault now).response
      = .httpError 500 (wrapDetail (excStr 500 (engineFailDetail eng.stderr))) := by
  simp [tryConvert, ht, hrc]

/-- Zero engine exit: the response is determined by the two-step output
resolution over the post-engine output directory. -/
theorem tryConvert_resolution (fs : FS) (filename input_name output_name cf : String)
    (t : Nat) (co : Option (List (String × String))) (fmt fid : String)
    (eng : EngineRun) (now : String) (ht : ¬ eng.duration > t)
    (hrc : eng.returncode = 0) :
    (tryConvert fs filename input_name output_name cf t co fmt fid eng .noFault now).response
      = (if output_name ∈ insertAll fs.outputs eng.produced then
           .fileResponse ("/tmp/outputs/" ++ output_name) (pyStem filename ++ "." ++ fmt)
         else if pyStem input_name ++ "." ++ fmt ∈ insertAll fs.outputs eng.produced then
           .fileResponse ("/tmp/outputs/" ++ (pyStem input_name ++ "." ++ fmt))
             (pyStem filename ++ "." ++ fmt)
         else .httpError 500 (wrapDetail (excStr 500 missingOutputDetail))) := by
  by_cases h1 : output_name ∈ insertAll fs.outputs eng.produced
  · simp [tryConvert, ht, hrc, h1]
  · by_cases h2 : pyStem input_name ++ "." ++ fmt ∈ insertAll fs.outputs eng.produced
    · simp [tryConvert, ht, hrc, h1, h2]
    · simp [tryConvert, ht, hrc, h1, h2]

/-- Metadata discipline of the shared conversion body: a `FileResponse`
comes with exactly one new metadata record, keyed by the resolved artifact
name, written while that artifact exists in the output directory; every
error response leaves the metadata directory untouched. -/
theorem tryConvert_metadata (fs : FS) (filename input_name output_name cf : String)
    (t : Nat) (co : Option (List (String × String))) (fmt fid : String)
    (eng : EngineRun) (fault : Fault) (now : String) :
    (match (tryConvert fs filename input_name output_name cf t co fmt fid eng fault now).response with
     | .fileResponse p _ => ∃ artifact,
         p = "/tmp/outputs/" ++ artifact ∧
         artifact ∈ (tryConvert fs filename input_name output_name cf t co fmt fid eng fault now).fs.outputs ∧
         (tryConvert fs filename input_name output_name cf t co fmt fid eng fault now).fs.metadata
           = metaWrite fs.metadata artifact
               (.valid ⟨some filename, some artifact, some fid, some fmt, co, some now⟩) ∧
         keyCount (tryConvert fs filename input_name output_name cf t co fmt fid eng fault now).fs.metadata
           artifact = 1
     | .httpError _ _ =>
         (tryConvert fs filename input_name output_name cf t co fmt fid eng fault now).fs.metadata
           = fs.metadata) := by
  cases fault with
  | stagingFails => simp [tryConvert]
  | noFault =>
    by_cases hd : eng.duration > t
    · simp [tryConvert, hd]
    · by_cases hrc : eng.returncode = 0
      · have hrc' : ¬ eng.returncode ≠ 0 := not_not_intro hrc
        by_cases h1 : output_name ∈ insertAll fs.outputs eng.produced
        · simp only [tryConvert, if_neg hd, if_neg hrc', if_pos h1]
          exact ⟨output_name, rfl, h1, rfl, keyCount_metaWrite _ _ _⟩
        · by_cases h2 : pyStem input_name ++ "." ++ fmt ∈ insertAll fs.outputs eng.produced
          · simp only [tryConvert, if_neg hd, if_neg hrc', if_neg h1, if_pos h2]
            exact ⟨pyStem input_name ++ "." ++ fmt, rfl, h2, rfl, keyCount_metaWrite _ _ _⟩
          · simp [tryConvert, hd, hrc, h1, h2]
      · simp [tryConvert, hd, hrc]

/-- The timeout response detail is distinct from any wrapped detail of the
generic exception handler (they differ at their fourth character). -/
theorem timeoutDetail_ne_wrapDetail (s : String) : timeoutDetail ≠ wrapDetail s := by
  intro h
  have h1 : timeoutDetail.data[3]? = (wrapDetail s).data[3]? := by rw [h]
  rw [wrapDetail, String.data_append, List.getElem?_append_left (by decide)] at h1
  exact absurd h1 (by decide)

/-! ## Claims -/

/-- **C10**: in both conversion endpoints the staged input is named
`{job_id}{original_extension}`, so its stem is the job id and the fallback
output path `{staged_input_stem}.{output_format}` coincides with the
predicted path `{job_id}.{output_format}`: the two-step resolution checks
one identical path twice.  (A `uuid4` job id is nonempty and contains no
`/`.) -/
theorem C10_fallback_equals_predicted (fid ext fmt : String) (h1 : fid ≠ "")
    (h2 : '/' ∉ fid.data) (h3 : ext ∈ ALLOWED_INPUT_FORMATS) :
    pyStem (fid ++ ext) = fid ∧
    fallbackOutput fid ext fmt = predictedOutput fid fmt := by
  refine ⟨pyStem_id_ext fid ext h1 h2 h3, ?_⟩
  simp only [fallbackOutput, predictedOutput, pyStem_id_ext fid ext h1 h2 h3]

theorem C10_fallback_equals_predicted_witness :
    pyStem ("9f8a7b3c" ++ ".pptx") = "9f8a7b3c" ∧
    fallbackOutput "9f8a7b3c" ".pptx" "pdf" = predictedOutput "9f8a7b3c" "pdf" :=
  C10_fallback_equals_predicted "9f8a7b3c" ".pptx" "pdf" (by decide) (by decide) (by decide)

/-- **C1**: for every request that reaches the staging step (both
validations passed) with a fresh job id, the staged input file
`{job_id}{extension}` is gone when the invocation ends, on every terminal
branch (success, engine failure, timeout, injected staging exception) of
both endpoints: the upload directory ends exactly as it started.  The
cleanup is the single `finally` step of the body, modelled as a total
function (it tests existence first and cannot itself raise). -/
theorem C1_staged_input_cleanup (fs : FS) (filename output_format : String)
    (use_tagged_pdf : Bool) (fid : String) (eng : EngineRun) (fault : Fault)
    (now : String)
    (hin : pyLower (pySuffix filename) ∈ ALLOWED_INPUT_FORMATS)
    (hout : output_format ∈ allowedOutputNames)
    (hfresh : fid ++ pyLower (pySuffix filename) ∉ fs.uploads) :
    (convert_ppt fs filename output_format use_tagged_pdf fid eng fault now).fs.uploads
      = fs.uploads ∧
    (convert_ppt_default fs filename output_format fid eng fault now).fs.uploads
      = fs.uploads := by
  constructor
  · simp only [convert_ppt, if_pos hin, if_pos hout]
    exact tryConvert_uploads _ _ _ _ _ _ _ _ _ _ _ _ hfresh
  · simp only [convert_ppt_default, if_pos hin, if_pos hout]
    exact tryConvert_uploads _ _ _ _ _ _ _ _ _ _ _ _ hfresh

theorem C1_staged_input_cleanup_witness :
    (convert_ppt ⟨["other.ppt"], [], []⟩ "deck.pptx" "pdf" true "job1"
        ⟨10, 0, "", ["job1.pdf"]⟩ .noFault "t0").fs.uploads = ["other.ppt"] ∧
    (convert_ppt_default ⟨["other.ppt"], [], []⟩ "deck.pptx" "pdf" "job1"
        ⟨10, 0, "", ["job1.pdf"]⟩ .noFault "t0").fs.uploads = ["other.ppt"] :=
  C1_staged_input_cleanup ⟨["other.ppt"], [], []⟩ "deck.pptx" "pdf" true "job1"
    ⟨10, 0, "", ["job1.pdf"]⟩ .noFault "t0" (by decide) (by decide) (by decide)

/-- **C6**: in a fault-free run of the full-option endpoint, the engine is
invoked with `--convert-to` equal to
`pdf:impress_pdf_Export:{UseTaggedPDF=true}` exactly when the output format
is `pdf` and the tagged-PDF option is requested, and with the plain format
name unchanged otherwise (no special options, or a non-pdf format). -/
theorem C6_tagged_pdf_filter (fs : FS) (filename output_format : String)
    (use_tagged_pdf : Bool) (fid : String) (eng : EngineRun) (now : String)
    (hin : pyLower (pySuffix filename) ∈ ALLOWED_INPUT_FORMATS)
    (hout : output_format ∈ allowedOutputNames) :
    (convert_ppt fs filename output_format use_tagged_pdf fid eng .noFault now).invocation
      = some ⟨(if output_format = "pdf" ∧ use_tagged_pdf then
                 "pdf:impress_pdf_Export:\x7bUseTaggedPDF=true\x7d"
               else output_format),
              "/tmp/outputs",
              "/tmp/uploads/" ++ (fid ++ pyLower (pySuffix filename)), 120⟩ := by
  simp only [convert_ppt, if_pos hin, if_pos hout]
  rw [tryConvert_invocation]
  have hcf : convertFormatFor output_format use_tagged_pdf
      = (if output_format = "pdf" ∧ use_tagged_pdf then
           "pdf:impress_pdf_Export:\x7bUseTaggedPDF=true\x7d"
         else output_format) := by
    by_cases hp : output_format = "pdf"
    · subst hp
      cases use_tagged_pdf <;> rfl
    · simp [convertFormatFor, hp]
  rw [hcf]

theorem C6_tagged_pdf_filter_witness :
    (convert_ppt ⟨[], [], []⟩ "deck.pptx" "pdf" true "job1"
        ⟨10, 0, "", ["job1.pdf"]⟩ .noFault "t0").invocation
      = some ⟨(if ("pdf" : String) = "pdf" ∧ true then
                 "pdf:impress_pdf_Export:\x7bUseTaggedPDF=true\x7d"
               else "pdf"),
              "/tmp/outputs", "/tmp/uploads/" ++ ("job1" ++ pyLower (pySuffix "deck.pptx")), 120⟩ :=
  C6_tagged_pdf_filter ⟨[], [], []⟩ "deck.pptx" "pdf" true "job1"
    ⟨10, 0, "", ["job1.pdf"]⟩ "t0" (by decide) (by decide)

/-- **C7**: the engine invocation carries a hard `timeout=120` on the
full-option path and `timeout=60` on the legacy/default path; exceeding the
bound yields the dedicated `ConversionTimeout` response, which differs from
the `EngineConversionFailed` response (engine ran and reported failure) for
every possible engine stderr. -/
theorem C7_timeout_bounds (fs : FS) (filename output_format : String)
    (use_tagged_pdf : Bool) (fid : String) (eng : EngineRun) (now : String)
    (hin : pyLower (pySuffix filename) ∈ ALLOWED_INPUT_FORMATS)
    (hout : output_format ∈ allowedOutputNames) :
    (∃ inv, (convert_ppt fs filename output_format use_tagged_pdf fid eng .noFault now).invocation
        = some inv ∧ inv.timeoutSec = 120) ∧
    (∃ inv, (convert_ppt_default fs filename output_format fid eng .noFault now).invocation
        = some inv ∧ inv.timeoutSec = 60) ∧
    (if eng.duration > 120 then
       (convert_ppt fs filename output_format use_tagged_pdf fid eng .noFault now).response
         = .httpError 500 timeoutDetail
     else True) ∧
    (if eng.duration > 60 then
       (convert_ppt_default fs filename output_format fid eng .noFault now).response
         = .httpError 500 timeoutDetail
     else True) ∧
    (if ¬ eng.duration > 120 ∧ eng.returncode ≠ 0 then
       (convert_ppt fs filename output_format use_tagged_pdf fid eng .noFault now).response
         = .httpError 500 (wrapDetail (excStr 500 (engineFailDetail eng.stderr)))
     else True) ∧
    (.httpError 500 timeoutDetail : Response)
      ≠ .httpError 500 (wrapDetail (excStr 500 (engineFailDetail eng.stderr))) := by
  refine ⟨?_, ?_, ?_, ?_, ?_, ?_⟩
  · simp only [convert_ppt, if_pos hin, if_pos hout, tryConvert_invocation]
    exact ⟨_, rfl, rfl⟩
  · simp only [convert_ppt_default, if_pos hin, if_pos hout, tryConvert_invocation]
    exact ⟨_, rfl, rfl⟩
  · split
    · next hd =>
      simp only [convert_ppt, if_pos hin, if_pos hout]
      exact tryConvert_timeout _ _ _ _ _ _ _ _ _ _ _ hd
    · trivial
  · split
    · next hd =>
      simp only [convert_ppt_default, if_pos hin, if_pos hout]
      exact tryConvert_timeout _ _ _ _ _ _ _ _ _ _ _ hd
    · trivial
  · split
    · next hd =>
      simp only [convert_ppt, if_pos hin, if_pos hout]
      exact tryConvert_engine_fail _ _ _ _ _ _ _ _ _ _ _ hd.1 hd.2
    · trivial
  · intro h
    injection h with h1 h2
    exact timeoutDetail_ne_wrapDetail _ h2

theorem C7_timeout_bounds_witness :
    (∃ inv, (convert_ppt ⟨[], [], []⟩ "deck.pptx" "pdf" true "job1"
        ⟨90, 1, "err", []⟩ .noFault "t0").invocation = some inv ∧ inv.timeoutSec = 120) ∧
    (∃ inv, (convert_ppt_default ⟨[], [], []⟩ "deck.pptx" "pdf" "job1"
        ⟨90, 1, "err", []⟩ .noFault "t0").invocation = some inv ∧ inv.timeoutSec = 60) ∧
    (if (90 : Nat) > 120 then
       (convert_ppt ⟨[], [], []⟩ "deck.pptx" "pdf" true "job1"
          ⟨90, 1, "err", []⟩ .noFault "t0").response = .httpError 500 timeoutDetail
     else True) ∧
    (if (90 : Nat) > 60 then
       (convert_ppt_default ⟨[], [], []⟩ "deck.pptx" "pdf" "job1"
          ⟨90, 1, "err", []⟩ .noFault "t0").response = .httpError 500 timeoutDetail
     else True) ∧
    (if ¬ (90 : Nat) > 120 ∧ (1 : Int) ≠ 0 then
       (convert_ppt ⟨[], [], []⟩ "deck.pptx" "pdf" true "job1"
          ⟨90, 1, "err", []⟩ .noFault "t0").response
         = .httpError 500 (wrapDetail (excStr 500 (engineFailDetail "err")))
     else True) ∧
    (.httpError 500 timeoutDetail : Response)
      ≠ .httpError 500 (wrapDetail (excStr 500 (engineFailDetail "err"))) :=
  C7_timeout_bounds ⟨[], [], []⟩ "deck.pptx" "pdf" true "job1"
    ⟨90, 1, "err", []⟩ "t0" (by decide) (by decide)

/-- **C2**: when the engine exits with status zero within the bound, the
runner first checks the predicted path `{job_id}.{output_format}`, then the
fallback `{staged_input_stem}.{output_format}`, adopting whichever exists in
the post-engine output directory; when neither exists it answers with the
missing-output error even though the engine reported success.  Stated for
both endpoints, each with an engine run within its own bound. -/
theorem C2_output_resolution (fs : FS) (filename output_format : String)
    (use_tagged_pdf : Bool) (fid : String) (eng engd : EngineRun) (now : String)
    (hin : pyLower (pySuffix filename) ∈ ALLOWED_INPUT_FORMATS)
    (hout : output_format ∈ allowedOutputNames)
    (ht : eng.duration ≤ 120) (hrc : eng.returncode = 0)
    (htd : engd.duration ≤ 60) (hrcd : engd.returncode = 0) :
    (convert_ppt fs filename output_format use_tagged_pdf fid eng .noFault now).response
      = (if predictedOutput fid output_format ∈ insertAll fs.outputs eng.produced then
           .fileResponse ("/tmp/outputs/" ++ predictedOutput fid output_format)
             (pyStem filename ++ "." ++ output_format)
         else if fallbackOutput fid (pyLower (pySuffix filename)) output_format
             ∈ insertAll fs.outputs eng.produced then
           .fileResponse
             ("/tmp/outputs/" ++ fallbackOutput fid (pyLower (pySuffix filename)) output_format)
             (pyStem filename ++ "." ++ output_format)
         else .httpError 500 (wrapDetail (excStr 500 missingOutputDetail))) ∧
    (convert_ppt_default fs filename output_format fid engd .noFault now).response
      = (if predictedOutput fid output_format ∈ insertAll fs.outputs engd.produced then
           .fileResponse ("/tmp/outputs/" ++ predictedOutput fid output_format)
             (pyStem filename ++ "." ++ output_format)
         else if fallbackOutput fid (pyLower (pySuffix filename)) output_format
             ∈ insertAll fs.outputs engd.produced then
           .fileResponse
             ("/tmp/outputs/" ++ fallbackOutput fid (pyLower (pySuffix filename)) output_format)
             (pyStem filename ++ "." ++ output_format)
         else .httpError 500 (wrapDetail (excStr 500 missingOutputDetail))) := by
  constructor
  · simp only [convert_ppt, if_pos hin, if_pos hout, predictedOutput, fallbackOutput]
    exact tryConvert_resolution _ _ _ _ _ _ _ _ _ _ _ (by omega) hrc
  · simp only [convert_ppt_default, if_pos hin, if_pos hout, predictedOutput, fallbackOutput]
    exact tryConvert_resolution _ _ _ _ _ _ _ _ _ _ _ (by omega) hrcd

theorem C2_output_resolution_witness :
    ((convert_ppt ⟨[], [], []⟩ "deck.pptx" "pdf" true "job1"
        ⟨10, 0, "", []⟩ .noFault "t0").response
      = (if predictedOutput "job1" "pdf" ∈ insertAll [] [] then
           .fileResponse ("/tmp/outputs/" ++ predictedOutput "job1" "pdf")
             (pyStem "deck.pptx" ++ "." ++ "pdf")
         else if fallbackOutput "job1" (pyLower (pySuffix "deck.pptx")) "pdf"
             ∈ insertAll [] [] then
           .fileResponse
             ("/tmp/outputs/" ++ fallbackOutput "job1" (pyLower (pySuffix "deck.pptx")) "pdf")
             (pyStem "deck.pptx" ++ "." ++ "pdf")
         else .httpError 500 (wrapDetail (excStr 500 missingOutputDetail)))) ∧
    ((convert_ppt_default ⟨[], [], []⟩ "deck.pptx" "pdf" "job1"
        ⟨10, 0, "", ["job1.pdf"]⟩ .noFault "t0").response
      = (if predictedOutput "job1" "pdf" ∈ insertAll [] ["job1.pdf"] then
           .fileResponse ("/tmp/outputs/" ++ predictedOutput "job1" "pdf")
             (pyStem "deck.pptx" ++ "." ++ "pdf")
         else if fallbackOutput "job1" (pyLower (pySuffix "deck.pptx")) "pdf"
             ∈ insertAll [] ["job1.pdf"] then
           .fileResponse
             ("/tmp/outputs/" ++ fallbackOutput "job1" (pyLower (pySuffix "deck.pptx")) "pdf")
             (pyStem "deck.pptx" ++ "." ++ "pdf")
         else .httpError 500 (wrapDetail (excStr 500 missingOutputDetail)))) :=
  C2_output_resolution ⟨[], [], []⟩ "deck.pptx" "pdf" true "job1"
    ⟨10, 0, "", []⟩ ⟨10, 0, "", ["job1.pdf"]⟩ "t0" (by decide) (by decide)
    (by decide) (by decide) (by decide) (by decide)

/-- **C4**: on both endpoints, a successful conversion writes exactly one
metadata record, keyed by the resolved artifact filename (record file
`{artifact}.json`), and only while that artifact exists in the output
directory; every failed, timed-out or faulted conversion leaves the
metadata directory exactly as it was. -/
theorem C4_metadata_discipline (fs : FS) (filename output_format : String)
    (use_tagged_pdf : Bool) (fid : String) (eng : EngineRun) (fault : Fault)
    (now : String)
    (hin : pyLower (pySuffix filename) ∈ ALLOWED_INPUT_FORMATS)
    (hout : output_format ∈ allowedOutputNames) :
    (match (convert_ppt fs filename output_format use_tagged_pdf fid eng fault now).response with
     | .fileResponse p _ => ∃ artifact,
         p = "/tmp/outputs/" ++ artifact ∧
         artifact ∈ (convert_ppt fs filename output_format use_tagged_pdf fid eng fault now).fs.outputs ∧
         (convert_ppt fs filename output_format use_tagged_pdf fid eng fault now).fs.metadata
           = metaWrite fs.metadata artifact
               (.valid ⟨some filename, some artifact, some fid, some output_format,
                        some [("use_tagged_pdf", pyBool use_tagged_pdf)], some now⟩) ∧
         keyCount (convert_ppt fs filename output_format use_tagged_pdf fid eng fault now).fs.metadata
           artifact = 1
     | .httpError _ _ =>
         (convert_ppt fs filename output_format use_tagged_pdf fid eng fault now).fs.metadata
           = fs.metadata) ∧
    (match (convert_ppt_default fs filename output_format fid eng fault now).response with
     | .fileResponse p _ => ∃ artifact,
         p = "/tmp/outputs/" ++ artifact ∧
         artifact ∈ (convert_ppt_default fs filename output_format fid eng fault now).fs.outputs ∧
         (convert_ppt_default fs filename output_format fid eng fault now).fs.metadata
           = metaWrite fs.metadata artifact
               (.valid ⟨some filename, some artifact, some fid, some output_format,
                        none, some now⟩) ∧
         keyCount (convert_ppt_default fs filename output_format fid eng fault now).fs.metadata
           artifact = 1
     | .httpError _ _ =>
         (convert_ppt_default fs filename output_format fid eng fault now).fs.metadata
           = fs.metadata) := by
  constructor
  · simp only [convert_ppt, if_pos hin, if_pos hout]
    exact tryConvert_metadata _ _ _ _ _ _ _ _ _ _ _ _
  · simp only [convert_ppt_default, if_pos hin, if_pos hout]
    exact tryConvert_metadata _ _ _ _ _ _ _ _ _ _ _ _

theorem C4_metadata_discipline_witness :
    (match (convert_ppt ⟨[], [], []⟩ "deck.pptx" "pdf" true "job1"
        ⟨10, 0, "", ["job1.pdf"]⟩ .noFault "t0").response with
     | .fileResponse p _ => ∃ artifact,
         p = "/tmp/outputs/" ++ artifact ∧
         artifact ∈ (convert_ppt ⟨[], [], []⟩ "deck.pptx" "pdf" true "job1"
            ⟨10, 0, "", ["job1.pdf"]⟩ .noFault "t0").fs.outputs ∧
         (convert_ppt ⟨[], [], []⟩ "deck.pptx" "pdf" true "job1"
            ⟨10, 0, "", ["job1.pdf"]⟩ .noFault "t0").fs.metadata
           = metaWrite [] artifact
               (.valid ⟨some "deck.pptx", some artifact, some "job1", some "pdf",
                        some [("use_tagged_pdf", pyBool true)], some "t0"⟩) ∧
         keyCount (convert_ppt ⟨[], [], []⟩ "deck.pptx" "pdf" true "job1"
            ⟨10, 0, "", ["job1.pdf"]⟩ .noFault "t0").fs.metadata artifact = 1
     | .httpError _ _ =>
         (convert_ppt ⟨[], [], []⟩ "deck.pptx" "pdf" true "job1"
            ⟨10, 0, "", ["job1.pdf"]⟩ .noFault "t0").fs.metadata = []) ∧
    (match (convert_ppt_default ⟨[], [], []⟩ "deck.pptx" "pdf" "job1"
        ⟨10, 0, "", ["job1.pdf"]⟩ .noFault "t0").response with
     | .fileResponse p _ => ∃ artifact,
         p = "/tmp/outputs/" ++ artifact ∧
         artifact ∈ (convert_ppt_default ⟨[], [], []⟩ "deck.pptx" "pdf" "job1"
            ⟨10, 0, "", ["job1.pdf"]⟩ .noFault "t0").fs.outputs ∧
         (convert_ppt_default ⟨[], [], []⟩ "deck.pptx" "pdf" "job1"
            ⟨10, 0, "", ["job1.pdf"]⟩ .noFault "t0").fs.metadata
           = metaWrite [] artifact
               (.valid ⟨some "deck.pptx", some artifact, some "job1", some "pdf",
                        none, some "t0"⟩) ∧
         keyCount (convert_ppt_default ⟨[], [], []⟩ "deck.pptx" "pdf" "job1"
            ⟨10, 0, "", ["job1.pdf"]⟩ .noFault "t0").fs.metadata artifact = 1
     | .httpError _ _ =>
         (convert_ppt_default ⟨[], [], []⟩ "deck.pptx" "pdf" "job1"
            ⟨10, 0, "", ["job1.pdf"]⟩ .noFault "t0").fs.metadata = []) :=
  C4_metadata_discipline ⟨[], [], []⟩ "deck.pptx" "pdf" true "job1"
    ⟨10, 0, "", ["job1.pdf"]⟩ .noFault "t0" (by decide) (by decide)

/-- **C5**: the fixed format sets, and fail-fast validation on both
endpoints: a filename passes exactly when its lowercased extension is in
{.ppt, .pptx, .odp}, a requested output format exactly when it is in
{pdf, odp, pptx, html}; a request failing either check is answered with the
corresponding 400 error with the filesystem untouched and no engine
invocation, and a request passing both is never answered with either 400
error. -/
theorem C5_format_validation (fs : FS) (filename output_format : String)
    (use_tagged_pdf : Bool) (fid : String) (eng : EngineRun) (fault : Fault)
    (now : String) :
    ALLOWED_INPUT_FORMATS = [".ppt", ".pptx", ".odp"] ∧
    allowedOutputNames = ["pdf", "odp", "pptx", "html"] ∧
    (if pyLower (pySuffix filename) ∈ ALLOWED_INPUT_FORMATS then
       (if output_format ∈ allowedOutputNames then
          ((convert_ppt fs filename output_format use_tagged_pdf fid eng fault now).response
              ≠ .httpError 400 invalidInputDetail ∧
           (convert_ppt fs filename output_format use_tagged_pdf fid eng fault now).response
              ≠ .httpError 400 invalidOutputDetail ∧
           (convert_ppt_default fs filename output_format fid eng fault now).response
              ≠ .httpError 400 invalidInputDetail ∧
           (convert_ppt_default fs filename output_format fid eng fault now).response
              ≠ .httpError 400 invalidOutputDetail)
        else
          (convert_ppt fs filename output_format use_tagged_pdf fid eng fault now
             = ⟨.httpError 400 invalidOutputDetail, fs, none⟩ ∧
           convert_ppt_default fs filename output_format fid eng fault now
             = ⟨.httpError 400 invalidOutputDetail, fs, none⟩))
     else
       (convert_ppt fs filename output_format use_tagged_pdf fid eng fault now
          = ⟨.httpError 400 invalidInputDetail, fs, none⟩ ∧
        convert_ppt_default fs filename output_format fid eng fault now
          = ⟨.httpError 400 invalidInputDetail, fs, none⟩)) := by
  refine ⟨rfl, by decide, ?_⟩
  by_cases hin : pyLower (pySuffix filename) ∈ ALLOWED_INPUT_FORMATS
  · rw [if_pos hin]
    by_cases hout : output_format ∈ allowedOutputNames
    · rw [if_pos hout]
      simp only [convert_ppt, convert_ppt_default, if_pos hin, if_pos hout]
      exact ⟨tryConvert_not_400 _ _ _ _ _ _ _ _ _ _ _ _ _,
             tryConvert_not_400 _ _ _ _ _ _ _ _ _ _ _ _ _,
             tryConvert_not_400 _ _ _ _ _ _ _ _ _ _ _ _ _,
             tryConvert_not_400 _ _ _ _ _ _ _ _ _ _ _ _ _⟩
    · rw [if_neg hout]
      simp [convert_ppt, convert_ppt_default, hin, hout]
  · rw [if_neg hin]
    simp [convert_ppt, convert_ppt_default, hin]

theorem C5_format_validation_witness :
    ALLOWED_INPUT_FORMATS = [".ppt", ".pptx", ".odp"] ∧
    allowedOutputNames = ["pdf", "odp", "pptx", "html"] ∧
    (if pyLower (pySuffix "deck.pptx") ∈ ALLOWED_INPUT_FORMATS then
       (if ("pdf" : String) ∈ allowedOutputNames then
          ((convert_ppt ⟨[], [], []⟩ "deck.pptx" "pdf" true "job1"
              ⟨10, 0, "", ["job1.pdf"]⟩ .noFault "t0").response
              ≠ .httpError 400 invalidInputDetail ∧
           (convert_ppt ⟨[], [], []⟩ "deck.pptx" "pdf" true "job1"
              ⟨10, 0, "", ["job1.pdf"]⟩ .noFault "t0").response
              ≠ .httpError 400 invalidOutputDetail ∧
           (convert_ppt_default ⟨[], [], []⟩ "deck.pptx" "pdf" "job1"
              ⟨10, 0, "", ["job1.pdf"]⟩ .noFault "t0").response
              ≠ .httpError 400 invalidInputDetail ∧
           (convert_ppt_default ⟨[], [], []⟩ "deck.pptx" "pdf" "job1"
              ⟨10, 0, "", ["job1.pdf"]⟩ .noFault "t0").response
              ≠ .httpError 400 invalidOutputDetail)
        else
          (convert_ppt ⟨[], [], []⟩ "deck.pptx" "pdf" true "job1"
             ⟨10, 0, "", ["job1.pdf"]⟩ .noFault "t0"
             = ⟨.httpError 400 invalidOutputDetail, ⟨[], [], []⟩, none⟩ ∧
           convert_ppt_default ⟨[], [], []⟩ "deck.pptx" "pdf" "job1"
             ⟨10, 0, "", ["job1.pdf"]⟩ .noFault "t0"
             = ⟨.httpError 400 invalidOutputDetail, ⟨[], [], []⟩, none⟩))
     else
       (convert_ppt ⟨[], [], []⟩ "deck.pptx" "pdf" true "job1"
          ⟨10, 0, "", ["job1.pdf"]⟩ .noFault "t0"
          = ⟨.httpError 400 invalidInputDetail, ⟨[], [], []⟩, none⟩ ∧
        convert_ppt_default ⟨[], [], []⟩ "deck.pptx" "pdf" "job1"
          ⟨10, 0, "", ["job1.pdf"]⟩ .noFault "t0"
          = ⟨.httpError 400 invalidInputDetail, ⟨[], [], []⟩, none⟩)) :=
  C5_format_validation ⟨[], [], []⟩ "deck.pptx" "pdf" true "job1"
    ⟨10, 0, "", ["job1.pdf"]⟩ .noFault "t0"


/-- Unlinking an existing record changes the metadata directory. -/
theorem dirErase_ne {dir : MetaDir} {k : String} (h : dirHas dir k = true) :
    dirErase dir k ≠ dir := by
  intro he
  obtain ⟨p, hp, hpk⟩ := List.any_eq_true.1 h
  have hlen : (dirErase dir k).length < dir.length := by
    refine List.length_filter_lt_length_iff_exists.2 ⟨p, hp, ?_⟩
    simp only [beq_iff_eq] at hpk
    simp [hpk]
  rw [he] at hlen
  exact Nat.lt_irrefl _ hlen

/-- **C8**: `delete_metadata_for_output` returns `true` exactly when it
removed some record; it first tries the record at the filename-derived path
`{artifact_name}.json` and deletes it when present, and otherwise any
deletion goes through the rebuilt index: it finds a legacy record for the
name via `metadata_by_output` and unlinks the job-id-derived file
`{file_id}.json`. -/
theorem C8_delete_metadata (dir : MetaDir) (f : String) :
    ((delete_metadata_for_output dir f).1 = true
      ↔ (delete_metadata_for_output dir f).2 ≠ dir) ∧
    (if dirHas dir f = true then
       delete_metadata_for_output dir f = (true, dirErase dir f)
     else
       ((delete_metadata_for_output dir f).1 = true →
        ∃ m fidv, dictGet (load_metadata_index dir).1 f = some m ∧
          m.file_id = some fidv ∧ fidv ≠ "" ∧ dirHas dir fidv = true ∧
          delete_metadata_for_output dir f = (true, dirErase dir fidv))) := by
  by_cases h : dirHas dir f = true
  · have he : delete_metadata_for_output dir f = (true, dirErase dir f) := by
      simp [delete_metadata_for_output, h]
    rw [if_pos h, he]
    exact ⟨by simpa using dirErase_ne h, rfl⟩
  · rw [if_neg h]
    cases hm : dictGet (load_metadata_index dir).1 f with
    | none =>
      have he : delete_metadata_for_output dir f = (false, dir) := by
        simp [delete_metadata_for_output, h, hm]
      rw [he]
      simp
    | some m =>
      cases hfid : m.file_id with
      | none =>
        have he : delete_metadata_for_output dir f = (false, dir) := by
          simp [delete_metadata_for_output, h, hm, hfid]
        rw [he]
        simp
      | some fidv =>
        by_cases hcond : fidv ≠ "" ∧ dirHas dir fidv
        · have he : delete_metadata_for_output dir f = (true, dirErase dir fidv) := by
            simp [delete_metadata_for_output, h, hm, hfid, hcond]
          rw [he]
          refine ⟨by simpa using dirErase_ne hcond.2, ?_⟩
          intro _
          exact ⟨m, fidv, rfl, hfid, hcond.1, hcond.2, rfl⟩
        · have he : delete_metadata_for_output dir f = (false, dir) := by
            simp only [delete_metadata_for_output, if_neg h, hm, hfid]
            rw [if_neg hcond]
          rw [he]
          simp

theorem C8_delete_metadata_witness :
    ((delete_metadata_for_output
        [("legacyid", .valid ⟨none, some "a.pdf", some "legacyid", none, none, none⟩)]
        "a.pdf").1 = true
      ↔ (delete_metadata_for_output
        [("legacyid", .valid ⟨none, some "a.pdf", some "legacyid", none, none, none⟩)]
        "a.pdf").2
        ≠ [("legacyid", .valid ⟨none, some "a.pdf", some "legacyid", none, none, none⟩)]) ∧
    (if dirHas [("legacyid", .valid ⟨none, some "a.pdf", some "legacyid", none, none, none⟩)]
        "a.pdf" = true then
       delete_metadata_for_output
         [("legacyid", .valid ⟨none, some "a.pdf", some "legacyid", none, none, none⟩)] "a.pdf"
         = (true, dirErase
             [("legacyid", .valid ⟨none, some "a.pdf", some "legacyid", none, none, none⟩)]
             "a.pdf")
     else
       ((delete_metadata_for_output
           [("legacyid", .valid ⟨none, some "a.pdf", some "legacyid", none, none, none⟩)]
           "a.pdf").1 = true →
        ∃ m fidv, dictGet (load_metadata_index
            [("legacyid", .valid ⟨none, some "a.pdf", some "legacyid", none, none, none⟩)]).1
            "a.pdf" = some m ∧
          m.file_id = some fidv ∧ fidv ≠ "" ∧
          dirHas [("legacyid", .valid ⟨none, some "a.pdf", some "legacyid", none, none, none⟩)]
            fidv = true ∧
          delete_metadata_for_output
            [("legacyid", .valid ⟨none, some "a.pdf", some "legacyid", none, none, none⟩)]
            "a.pdf"
            = (true, dirErase
                [("legacyid", .valid ⟨none, some "a.pdf", some "legacyid", none, none, none⟩)]
                fidv))) :=
  C8_delete_metadata
    [("legacyid", .valid ⟨none, some "a.pdf", some "legacyid", none, none, none⟩)] "a.pdf"

/-- **C3**: the containment check of download/delete is
`str(resolved).startswith(str(OUTPUT_DIR))` — a string-prefix test with no
directory-separator boundary.  The crafted name `../outputsevil/pwn`
resolves to `/tmp/outputsevil/pwn`, which is *outside* the store root yet
passes the check: the file is served by download and unlinked by delete.
(The classic traversal `../../etc/passwd` and the absolute `/etc/passwd`
are rejected with 403, so the flaw is specifically the missing separator
boundary.) -/
theorem C3_prefix_check_escape :
    download_file [["tmp", "outputsevil", "pwn"]] "../outputsevil/pwn"
      = .file ["tmp", "outputsevil", "pwn"] "../outputsevil/pwn" ∧
    underOutputRoot ["tmp", "outputsevil", "pwn"] = false ∧
    insideCheck ["tmp", "outputsevil", "pwn"] = true ∧
    delete_output [["tmp", "outputsevil", "pwn"]] [] "../outputsevil/pwn"
      = (.ok "../outputsevil/pwn" false, [], []) ∧
    download_file [["etc", "passwd"]] "../../etc/passwd"
      = .httpError 403 "접근이 거부되었습니다." ∧
    download_file [["etc", "passwd"]] "/etc/passwd"
      = .httpError 403 "접근이 거부되었습니다." := by decide

/-- **C9 counterexample**: `quality` is one of the enumerated conversion
options, but it is not a parameter of either conversion endpoint, and the
metadata record of a concrete successful conversion records only
`use_tagged_pdf` — refuting "every enumerated conversion option is accepted
by the conversion request interface and recorded in the metadata
record". -/
theorem C9_options_counterexample :
    "quality" ∈ conversionOptionsModelFields ∧
    "quality" ∉ convertEndpointParams ∧
    "quality" ∉ convertDefaultEndpointParams ∧
    (convert_ppt ⟨[], [], []⟩ "deck.pptx" "pdf" true "job1"
        ⟨10, 0, "", ["job1.pdf"]⟩ .noFault "t0").fs.metadata
      = [("job1.pdf", .valid ⟨some "deck.pptx", some "job1.pdf", some "job1", some "pdf",
          some [("use_tagged_pdf", "true")], some "t0"⟩)] ∧
    "quality" ∉ List.map Prod.fst [("use_tagged_pdf", "true")] := by decide

/-- **C9 amended**: of the enumerated options only `use_tagged_pdf` is
accepted by the conversion request interface and recorded in the metadata
record's `conversion_options`; the full enumerated set is exposed by the
`GET /conversion-options` surface (mirroring the unused `ConversionOptions`
model) without being accepted or recorded by the conversion endpoints. -/
theorem C9_options_amended (fs : FS) (filename output_format : String)
    (use_tagged_pdf : Bool) (fid : String) (eng : EngineRun) (now : String)
    (hin : pyLower (pySuffix filename) ∈ ALLOWED_INPUT_FORMATS)
    (hout : output_format ∈ allowedOutputNames)
    (ht : eng.duration ≤ 120) (hrc : eng.returncode = 0)
    (hpred : predictedOutput fid output_format ∈ insertAll fs.outputs eng.produced) :
    convertEndpointParams = ["file", "output_format", "use_tagged_pdf"] ∧
    conversionOptionsSurface = conversionOptionsModelFields ∧
    "use_tagged_pdf" ∈ convertEndpointParams ∧
    (convert_ppt fs filename output_format use_tagged_pdf fid eng .noFault now).fs.metadata
      = metaWrite fs.metadata (predictedOutput fid output_format)
          (.valid ⟨some filename, some (predictedOutput fid output_format), some fid,
                   some output_format, some [("use_tagged_pdf", pyBool use_tagged_pdf)],
                   some now⟩) ∧
    List.map Prod.fst [("use_tagged_pdf", pyBool use_tagged_pdf)] = ["use_tagged_pdf"] := by
  refine ⟨rfl, rfl, by decide, ?_, by simp⟩
  have hd : ¬ eng.duration > 120 := by omega
  have hrc' : ¬ eng.returncode ≠ 0 := not_not_intro hrc
  simp only [predictedOutput] at hpred ⊢
  simp only [convert_ppt, if_pos hin, if_pos hout, tryConvert, if_neg hd, if_neg hrc',
    if_pos hpred]

theorem C9_options_amended_witness :
    convertEndpointParams = ["file", "output_format", "use_tagged_pdf"] ∧
    conversionOptionsSurface = conversionOptionsModelFields ∧
    "use_tagged_pdf" ∈ convertEndpointParams ∧
    (convert_ppt ⟨[], [], []⟩ "deck.pptx" "pdf" true "job1"
        ⟨10, 0, "", ["job1.pdf"]⟩ .noFault "t0").fs.metadata
      = metaWrite [] (predictedOutput "job1" "pdf")
          (.valid ⟨some "deck.pptx", some (predictedOutput "job1" "pdf"), some "job1",
                   some "pdf", some [("use_tagged_pdf", pyBool true)], some "t0"⟩) ∧
    List.map Prod.fst [("use_tagged_pdf", pyBool true)] = ["use_tagged_pdf"] :=
  C9_options_amended ⟨[], [], []⟩ "deck.pptx" "pdf" true "job1"
    ⟨10, 0, "", ["job1.pdf"]⟩ "t0" (by decide) (by decide) (by decide) (by decide)
    (by decide)

end PptConverter

